import Mathlib

/-!
Shallow embedding of the 24fire automation engine (`src/main.py`):
the rule registry (`AutomationManager.automations`), the APScheduler job
registry keyed by job id, the scheduling logic (`schedule_automation`),
the usage-trigger evaluator (`check_usage_trigger`), the action dispatcher
(`execute_automation`) and the HTTP handlers (`create_automation`,
`update_automation`, `delete_automation`, plus the manual-execute
endpoint).  Python dicts become association lists that preserve insertion
order and replace in place, matching CPython dict semantics; sampled host
metrics (`psutil`) become an explicit `Metrics` record; the single
external call an action makes becomes an explicit `ActionOutcome`
parameter; code that can raise returns `Except`.
-/

/-- The slots of the `trigger_config: Dict` that `main.py` ever reads
(`"cron"`, `"threshold"`, `"resource"`, `"path"`); a missing slot is
`none`, mirroring `dict.get(key, default)`.  Percentages are rationals. -/
structure TriggerConfig where
  cron : Option String := none
  threshold : Option ℚ := none
  resource : Option String := none
  path : Option String := none
  deriving DecidableEq, Repr

/-- The slots of the `action_config: Dict` that `main.py` reads in the
action executors (`"url"`, `"headers"`, `"data"`, `"message"`,
`"description"`). -/
structure ActionConfig where
  url : Option String := none
  headers : List (String × String) := []
  data : List (String × String) := []
  message : Option String := none
  description : Option String := none
  deriving DecidableEq, Repr

/-- The pydantic request/record model `AutomationConfig` of `main.py`:
`id`, `name`, `trigger_type` ("time" | "usage"), `trigger_config`,
`action_type` ("http_post" | "discord_webhook" | "restart" | "shutdown" |
"backup"), `action_config`, `enabled` (default `True`).  The kind fields
are plain strings in the source, so they are plain strings here. -/
structure AutomationConfig where
  id : String
  name : String
  trigger_type : String
  trigger_config : TriggerConfig
  action_type : String
  action_config : ActionConfig
  enabled : Bool := true
  deriving DecidableEq, Repr

/-- Association-list lookup, the embedding of `d[k]` / `k in d` on a
Python dict (keys are unique in every state the program builds). -/
def alistGet (l : List (String × α)) (k : String) : Option α :=
  match l with
  | [] => none
  | (k2, v) :: t => if k2 = k then some v else alistGet t k

/-- `d[k] = v` on a Python dict: replaces in place, else appends, which
is exactly CPython insertion-order semantics. -/
def alistPut (l : List (String × α)) (k : String) (v : α) :
    List (String × α) :=
  match l with
  | [] => [(k, v)]
  | (k2, w) :: t =>
      if k2 = k then (k2, v) :: t else (k2, w) :: alistPut t k v

/-- `del d[k]` when the key is present; on an absent key it leaves the
list unchanged, which is how the source always uses removal on the job
registry (`scheduler.remove_job` wrapped in `try/except: pass`). -/
def alistDel (l : List (String × α)) (k : String) : List (String × α) :=
  match l with
  | [] => []
  | (k2, v) :: t => if k2 = k then t else (k2, v) :: alistDel t k

/-- The five cron fields `CronTrigger` is built from in
`schedule_automation` (minute, hour, day, month, day_of_week), each
defaulting to `"*"` when the expression has fewer parts. -/
structure CronFields where
  minute : String
  hour : String
  day : String
  month : String
  day_of_week : String
  deriving DecidableEq, Repr

/-- `trigger_config["cron"].split()` and the per-field defaulting in
`schedule_automation`: whitespace split dropping empty parts (Python
`str.split()`), then part i or `"*"`. -/
def parseCron (expr : String) : CronFields :=
  let parts := (expr.split Char.isWhitespace).filter (fun s => s ≠ "")
  { minute := (parts.get? 0).getD "*"
    hour := (parts.get? 1).getD "*"
    day := (parts.get? 2).getD "*"
    month := (parts.get? 3).getD "*"
    day_of_week := (parts.get? 4).getD "*" }

/-- One entry of the APScheduler job registry: either the recurring cron
job running `execute_automation(automation)` or the 5-minute interval
poll running `check_usage_trigger(automation)`. -/
inductive JobKind where
  | cron (a : AutomationConfig) (fields : CronFields)
  | usagePoll (a : AutomationConfig)
  deriving DecidableEq, Repr

/-- `AutomationManager.schedule_automation`: for `trigger_type == "time"`
with a `"cron"` slot, add a cron job under id `automation.id`
(`replace_existing=True`); for `trigger_type == "usage"`, add the
interval poll under id `"usage_" + automation.id`; any other trigger kind
adds nothing. -/
def schedule_automation (jobs : List (String × JobKind))
    (a : AutomationConfig) : List (String × JobKind) :=
  if a.trigger_type = "time" then
    match a.trigger_config.cron with
    | some expr => alistPut jobs a.id (JobKind.cron a (parseCron expr))
    | none => jobs
  else if a.trigger_type = "usage" then
    alistPut jobs ("usage_" ++ a.id) (JobKind.usagePoll a)
  else jobs

/-- The engine state the handlers mutate: the manager's rule dict
(`automation_manager.automations`) and the scheduler's job registry. -/
structure ManagerState where
  automations : List (String × AutomationConfig)
  jobs : List (String × JobKind)
  deriving DecidableEq, Repr

/-- `POST /automations` (`create_automation`): store the rule under its
own id, then schedule it when enabled.  The handler performs no
validation of its own; it never rejects a well-typed body. -/
def create_automation (st : ManagerState) (a : AutomationConfig) :
    ManagerState :=
  { automations := alistPut st.automations a.id a
    jobs := if a.enabled then schedule_automation st.jobs a else st.jobs }

/-- `PUT /automations/{automation_id}` (`update_automation`): 404 when
the path id is not a stored key; otherwise remove the scheduler job keyed
by the PATH id (quietly: `try/except: pass`), store the BODY under the
path key, and schedule the body when enabled (jobs keyed by the body's
id). -/
def update_automation (st : ManagerState) (automation_id : String)
    (a : AutomationConfig) : Except Nat ManagerState :=
  if (alistGet st.automations automation_id).isSome then
    let jobs1 := alistDel st.jobs automation_id
    Except.ok
      { automations := alistPut st.automations automation_id a
        jobs := if a.enabled then schedule_automation jobs1 a else jobs1 }
  else Except.error 404

/-- `DELETE /automations/{automation_id}` (`delete_automation`): 404 when
absent; otherwise remove the scheduler job keyed by the id (quietly) and
delete the rule from the dict. -/
def delete_automation (st : ManagerState) (automation_id : String) :
    Except Nat ManagerState :=
  if (alistGet st.automations automation_id).isSome then
    Except.ok
      { automations := alistDel st.automations automation_id
        jobs := alistDel st.jobs automation_id }
  else Except.error 404

/-- `GET /automations` (`list_automations`):
`list(automation_manager.automations.values())`. -/
def list_automations (st : ManagerState) : List AutomationConfig :=
  st.automations.map Prod.snd

/-- Sampled host metrics, the embedding of the `psutil` calls in
`check_usage_trigger`: aggregate cpu percent, virtual-memory percent, and
disk-usage percent at a path. -/
structure Metrics where
  cpu : ℚ
  memory : ℚ
  disk : String → ℚ

/-- Outcome of the one external call the chosen action executor makes
(HTTP POST / webhook / subprocess / backup request): either the log lines
the executor writes around a completed call, or an exception carrying the
error message. -/
inductive ActionOutcome where
  | ok (logs : List String)
  | raises (msg : String)
  deriving DecidableEq, Repr

/-- The `try:` body of `AutomationManager.execute_automation`: the
`if/elif` dispatch on `action_type`.  A known kind performs its external
call (whose outcome is `env`); an unknown kind falls through every branch
and does nothing. -/
def dispatchAction (a : AutomationConfig) (env : ActionOutcome) :
    Except String (List String) :=
  if a.action_type = "http_post" ∨ a.action_type = "discord_webhook" ∨
      a.action_type = "restart" ∨ a.action_type = "shutdown" ∨
      a.action_type = "backup" then
    match env with
    | ActionOutcome.ok logs => Except.ok logs
    | ActionOutcome.raises msg => Except.error msg
  else Except.ok []

/-- `AutomationManager.execute_automation`: logs
`"Executing automation: {name}"`, runs the dispatch inside
`try/except Exception`, and on an exception logs
`"Error executing automation {name}: {e}"`.  The function returns only
its log record (the Python method returns `None`); no exception leaves
it. -/
def execute_automation (a : AutomationConfig) (env : ActionOutcome) :
    List String :=
  ("Executing automation: " ++ a.name) ::
    (match dispatchAction a env with
     | Except.ok logs => logs
     | Except.error msg =>
         ["Error executing automation " ++ a.name ++ ": " ++ msg])

/-- The `.get(...)` defaults used by `check_usage_trigger`:
`trigger_config.get("threshold", 80)`. -/
def effThreshold (tc : TriggerConfig) : ℚ := tc.threshold.getD 80

/-- `trigger_config.get("resource", "cpu")`. -/
def effResource (tc : TriggerConfig) : String := tc.resource.getD "cpu"

/-- `trigger_config.get("path", "/")` (only read in the disk branch). -/
def effDiskPath (tc : TriggerConfig) : String := tc.path.getD "/"

/-- The `if/elif` chain of `check_usage_trigger` that samples the
configured resource: `some` usage for `cpu`/`memory`/`disk`, `none` for
any other resource kind (the `else: return` branch). -/
def sampleResource (a : AutomationConfig) (m : Metrics) : Option ℚ :=
  let tc := a.trigger_config
  if effResource tc = "cpu" then some m.cpu
  else if effResource tc = "memory" then some m.memory
  else if effResource tc = "disk" then some (m.disk (effDiskPath tc))
  else none

/-- Result of one poll tick: whether the dispatcher was invoked and the
log record the tick produced. -/
structure CheckResult where
  fired : Bool
  logs : List String
  deriving DecidableEq, Repr

/-- `AutomationManager.check_usage_trigger`: read threshold and resource
with their defaults, sample the resource (returning silently on an
unknown kind — no log, no exception), and when
`current_usage >= threshold` await `execute_automation(automation)`. -/
def check_usage_trigger (a : AutomationConfig) (m : Metrics)
    (env : ActionOutcome) : CheckResult :=
  match sampleResource a m with
  | none => { fired := false, logs := [] }
  | some currentUsage =>
      if effThreshold a.trigger_config ≤ currentUsage then
        { fired := true, logs := execute_automation a env }
      else { fired := false, logs := [] }

/-- One scheduler tick of a registered job: a cron job's callback is
`execute_automation(automation)`; a usage poll's callback is
`check_usage_trigger(automation)`. -/
def jobTick (j : JobKind) (m : Metrics) (env : ActionOutcome) :
    CheckResult :=
  match j with
  | JobKind.cron a _ => { fired := true, logs := execute_automation a env }
  | JobKind.usagePoll a => check_usage_trigger a m env

/-- `POST /automations/{automation_id}/execute` (the execute endpoint):
404 when the id is not stored; otherwise
`background_tasks.add_task(execute_automation, automation)` — the task is
appended to the pending/in-flight task list unconditionally.  The program
keeps no registry of in-flight executions, so nothing is consulted or
dropped. -/
def execute_automation_endpoint (st : ManagerState)
    (inflight : List AutomationConfig) (automation_id : String) :
    Except Nat (List AutomationConfig) :=
  match alistGet st.automations automation_id with
  | some a => Except.ok (inflight ++ [a])
  | none => Except.error 404

/-- The raw JSON body of a create/update request, restricted to the
top-level keys the `AutomationConfig` model declares (a slot is `none`
when the key is absent from the document). -/
structure RawAutomation where
  id : Option String := none
  name : Option String := none
  trigger_type : Option String := none
  trigger_config : Option TriggerConfig := none
  action_type : Option String := none
  action_config : Option ActionConfig := none
  enabled : Option Bool := none
  deriving DecidableEq, Repr

/-- Pydantic validation of a request body against `AutomationConfig`:
every field without a default must be present (with its declared type);
`enabled` defaults to `True`.  No cross-field, kind, or range check
exists in the model. -/
def validateAutomation (raw : RawAutomation) : Option AutomationConfig :=
  match raw.id, raw.name, raw.trigger_type, raw.trigger_config,
      raw.action_type, raw.action_config with
  | some i, some n, some tt, some tc, some at_, some ac =>
      some { id := i, name := n, trigger_type := tt, trigger_config := tc
             action_type := at_, action_config := ac
             enabled := raw.enabled.getD true }
  | _, _, _, _, _, _ => none

/-- Spec-side definition, for comparison only (claim C4).  Modelled from
the spec's words in §4.1: a rule is structurally valid when its trigger
kind is known with the required field for that kind (`time` needs a cron
expression; `usage` needs its threshold in [0,100]) and its action kind
is known with its required field (`http_post` needs a url). -/
def specValidRule (a : AutomationConfig) : Bool :=
  (if a.trigger_type = "time" then a.trigger_config.cron.isSome
   else if a.trigger_type = "usage" then
     decide (0 ≤ effThreshold a.trigger_config ∧
       effThreshold a.trigger_config ≤ 100)
   else false) &&
  (if a.action_type = "http_post" then a.action_config.url.isSome
   else decide (a.action_type = "discord_webhook" ∨
     a.action_type = "restart" ∨ a.action_type = "shutdown" ∨
     a.action_type = "backup"))

/-- Boolean test that one character list starts with another (used only
to state what the dispatcher's log record does and does not contain). -/
def chBegins : List Char → List Char → Bool
  | [], _ => true
  | _ :: _, [] => false
  | c :: cs, d :: ds => c == d && chBegins cs ds

/-- Boolean substring test on character lists. -/
def chContains (needle : List Char) : List Char → Bool
  | [] => chBegins needle []
  | d :: ds => chBegins needle (d :: ds) || chContains needle ds

/-- Boolean substring test on strings. -/
def strContains (hay needle : String) : Bool :=
  chContains needle.data hay.data

/-- The scheduler entries that belong to a rule id: the program only ever
creates jobs keyed `id` (cron) or `"usage_" + id` (usage poll). -/
def jobsForId (jobs : List (String × JobKind)) (automation_id : String) :
    List (String × JobKind) :=
  jobs.filter
    (fun p => p.1 == automation_id || p.1 == "usage_" ++ automation_id)

theorem alistGet_put_self (l : List (String × α)) (k : String) (v : α) :
    alistGet (alistPut l k v) k = some v := by
  induction l with
  | nil => simp [alistPut, alistGet]
  | cons p t ih =>
    obtain ⟨k2, w⟩ := p
    by_cases h : k2 = k
    · simp [alistPut, h, alistGet]
    · simp [alistPut, h, alistGet, ih]

theorem alistGet_put_ne (l : List (String × α)) (k k2 : String) (v : α)
    (h : k ≠ k2) :
    alistGet (alistPut l k v) k2 = alistGet l k2 := by
  induction l with
  | nil => simp [alistPut, alistGet, h]
  | cons p t ih =>
    obtain ⟨k3, w⟩ := p
    by_cases h3 : k3 = k
    · subst h3
      simp [alistPut, alistGet, h]
    · simp [alistPut, h3, alistGet, ih]

theorem filter_eq_nil_of_none (l : List α) (p : α → Bool)
    (h : ∀ x ∈ l, p x = false) : l.filter p = [] := by
  induction l with
  | nil => rfl
  | cons x t ih =>
    simp [List.filter_cons, h x (List.mem_cons_self x t),
      ih (fun y hy => h y (List.mem_cons_of_mem x hy))]

/-- A usage-threshold rule (cpu at 80 percent) used in the concrete
scenarios below. -/
def cpuRule : AutomationConfig :=
  { id := "r1", name := "high-cpu"
    trigger_type := "usage"
    trigger_config := { threshold := some 80, resource := some "cpu" }
    action_type := "discord_webhook"
    action_config := { message := some "cpu high" } }

/-- A cron rule with the same id as `cpuRule`, used to update the rule's
trigger kind from usage to time. -/
def cronRule1 : AutomationConfig :=
  { id := "r1", name := "nightly-backup"
    trigger_type := "time"
    trigger_config := { cron := some "0 2 * * *" }
    action_type := "backup"
    action_config := { description := some "nightly" } }

/-- An http_post rule whose id differs from its display name, used to
inspect the dispatcher's failure record. -/
def failRule : AutomationConfig :=
  { id := "r42", name := "cleanup"
    trigger_type := "time"
    trigger_config := { cron := some "0 2 * * *" }
    action_type := "http_post"
    action_config := { url := some "http://unreachable.example" } }

/-- A usage rule configured with a resource kind the evaluator does not
know. -/
def gpuRule : AutomationConfig :=
  { id := "g1", name := "gpu-watch"
    trigger_type := "usage"
    trigger_config := { threshold := some 10, resource := some "gpu" }
    action_type := "restart"
    action_config := { } }

/-- C1.  The claim states that after `deleteRule(id)` succeeds no job for
that rule remains in the scheduler's registry (for both trigger kinds)
and the Action Dispatcher is never invoked for that id again.  The code
violates it: `delete_automation` removes the job keyed `automation_id`,
but a usage rule's job is keyed `"usage_" + id`, so deleting a usage rule
leaves its 5-minute poll registered; the next tick of that dangling poll
still invokes the dispatcher (here at 90 percent cpu against threshold
80). -/
theorem delete_leaves_usage_poll_dangling :
    delete_automation (create_automation ⟨[], []⟩ cpuRule) "r1" =
      Except.ok ⟨[], [("usage_r1", JobKind.usagePoll cpuRule)]⟩ ∧
    (jobTick (JobKind.usagePoll cpuRule) ⟨90, 0, fun _ => 0⟩
      (ActionOutcome.ok ["sent"])).fired = true :=
  ⟨rfl, rfl⟩

/-- C2.  The claim states that `updateRule(id, definition)` leaves
exactly one active scheduled job for that id, in particular across a
trigger-kind change.  The code violates it: updating the usage rule `r1`
to a cron trigger removes only the job keyed `r1` (absent), leaves the
old poll keyed `usage_r1`, and adds the new cron job keyed `r1` — the
registry then holds two jobs for that id. -/
theorem update_trigger_kind_leaves_two_jobs :
    update_automation (create_automation ⟨[], []⟩ cpuRule) "r1" cronRule1 =
      Except.ok
        ⟨[("r1", cronRule1)],
         [("usage_r1", JobKind.usagePoll cpuRule),
          ("r1", JobKind.cron cronRule1 (parseCron "0 2 * * *"))]⟩ ∧
    (jobsForId
      [("usage_r1", JobKind.usagePoll cpuRule),
       ("r1", JobKind.cron cronRule1 (parseCron "0 2 * * *"))]
      "r1").length = 2 :=
  ⟨rfl, rfl⟩

/-- C3.  The claim states that a tick or executeNow request arriving
while a previous firing of the same rule is still in flight is dropped.
The code violates it: the execute endpoint hands the rule to
`BackgroundTasks.add_task` unconditionally — the program keeps no
registry of in-flight executions, so with one firing of `r1` still in
flight a second concurrent execution of the same rule is started rather
than dropped. -/
theorem execute_endpoint_overlapping_run :
    execute_automation_endpoint
      ⟨[("r1", cpuRule)], [("usage_r1", JobKind.usagePoll cpuRule)]⟩
      [cpuRule] "r1" = Except.ok [cpuRule, cpuRule] :=
  rfl

/-- A request body that is well-typed for the model but structurally
invalid in the claim's sense: unknown trigger kind, threshold outside
[0,100], and an http_post action missing its url. -/
def bogusRaw : RawAutomation :=
  { id := some "x", name := some "bogus"
    trigger_type := some "bogus"
    trigger_config := some { threshold := some 150 }
    action_type := some "http_post"
    action_config := some { } }

/-- The record pydantic builds from `bogusRaw`. -/
def bogusRule : AutomationConfig :=
  { id := "x", name := "bogus"
    trigger_type := "bogus"
    trigger_config := { threshold := some 150 }
    action_type := "http_post"
    action_config := { } }

/-- C4, counterexample.  The claim states that a definition with an
unknown trigger/action kind, an out-of-range threshold, or a missing
required field is rejected with a ValidationError before persistence and
never stored.  On the code, `bogusRaw` (unknown trigger kind "bogus",
threshold 150, http_post without url) passes the model's shape-only
validation and `create_automation` stores it. -/
theorem create_accepts_invalid_rule_cex :
    validateAutomation bogusRaw = some bogusRule ∧
    specValidRule bogusRule = false ∧
    alistGet (create_automation ⟨[], []⟩ bogusRule).automations "x" =
      some bogusRule :=
  ⟨rfl, rfl, rfl⟩

/-- C4, amended: validation before persistence is shape-only — pydantic
checks that the model's required fields are present with their declared
types, passing the kind strings and threshold through unexamined, and
every definition that passes it is stored under its id by
`create_automation` (scheduling it when enabled); no kind or range check
happens. -/
theorem create_validates_shape_only (st : ManagerState)
    (raw : RawAutomation) (a : AutomationConfig)
    (h : validateAutomation raw = some a) :
    raw.trigger_type = some a.trigger_type ∧
    raw.action_type = some a.action_type ∧
    alistGet (create_automation st a).automations a.id = some a := by
  obtain ⟨i, n, tt, tc, at2, ac, en⟩ := raw
  cases i <;> cases n <;> cases tt <;> cases tc <;> cases at2 <;>
    cases ac <;> simp [validateAutomation] at h
  subst h
  exact ⟨rfl, rfl, alistGet_put_self _ _ _⟩

/-- C4, witness for `create_validates_shape_only` at `bogusRaw`. -/
theorem create_validates_shape_only_witness :
    bogusRaw.trigger_type = some bogusRule.trigger_type ∧
    bogusRaw.action_type = some bogusRule.action_type ∧
    alistGet (create_automation ⟨[], []⟩ bogusRule).automations
      bogusRule.id = some bogusRule :=
  create_validates_shape_only ⟨[], []⟩ bogusRaw bogusRule rfl

/-- C5, counterexample.  The claim states that a failure raised by the
action is reported as a structured result containing the rule id, action
kind, success flag, and error message.  On the code the entire observable
run record of a failing execution is two log lines built from the rule's
NAME and the message; the rule id `r42`, the action kind `http_post`,
and any success flag appear nowhere (the Python method returns `None`). -/
theorem execute_failure_no_structured_result_cex :
    execute_automation failRule (ActionOutcome.raises "boom") =
      ["Executing automation: cleanup",
       "Error executing automation cleanup: boom"] ∧
    (execute_automation failRule (ActionOutcome.raises "boom")).all
      (fun l => !(strContains l "r42")) = true ∧
    (execute_automation failRule (ActionOutcome.raises "boom")).all
      (fun l => !(strContains l "http_post")) = true :=
  ⟨rfl, rfl, rfl⟩

/-- C5, amended: for every rule with a known action kind, a failure
raised by the action's external call is caught at the
`execute_automation` boundary — the function returns its log record
(naming the rule by display name together with the error message) and no
exception propagates into the scheduling loop; no structured
`ruleId/kind/success` result is produced. -/
theorem execute_catches_action_failure (a : AutomationConfig)
    (msg : String)
    (h : a.action_type = "http_post" ∨ a.action_type = "discord_webhook" ∨
      a.action_type = "restart" ∨ a.action_type = "shutdown" ∨
      a.action_type = "backup") :
    execute_automation a (ActionOutcome.raises msg) =
      ["Executing automation: " ++ a.name,
       "Error executing automation " ++ a.name ++ ": " ++ msg] := by
  unfold execute_automation dispatchAction
  rw [if_pos h]

/-- C5, witness for `execute_catches_action_failure` at `failRule`. -/
theorem execute_catches_action_failure_witness :
    execute_automation failRule (ActionOutcome.raises "boom") =
      ["Executing automation: " ++ failRule.name,
       "Error executing automation " ++ failRule.name ++ ": " ++ "boom"] :=
  execute_catches_action_failure failRule "boom" (Or.inl rfl)

/-- C6.  The usage-trigger evaluation fires the action iff the sampled
value is at least the threshold (`current_usage >= threshold` in
`check_usage_trigger`); on the boundary, a cpu rule with threshold 80
does not fire at 79.9 but fires at 80.0 and at 100.0. -/
theorem usage_fires_iff_threshold_le_sample :
    (∀ (a : AutomationConfig) (m : Metrics) (env : ActionOutcome),
      (check_usage_trigger a m env).fired = true ↔
        ∃ v, sampleResource a m = some v ∧
          effThreshold a.trigger_config ≤ v) ∧
    (check_usage_trigger cpuRule ⟨799/10, 0, fun _ => 0⟩
      (ActionOutcome.ok ["sent"])).fired = false ∧
    (check_usage_trigger cpuRule ⟨80, 0, fun _ => 0⟩
      (ActionOutcome.ok ["sent"])).fired = true ∧
    (check_usage_trigger cpuRule ⟨100, 0, fun _ => 0⟩
      (ActionOutcome.ok ["sent"])).fired = true := by
  refine ⟨?_, ?_, rfl, rfl⟩
  · intro a m env
    cases hs : sampleResource a m with
    | none => simp [check_usage_trigger, hs]
    | some v =>
      by_cases hle : effThreshold a.trigger_config ≤ v <;>
        simp [check_usage_trigger, hs, hle]
  · norm_num [check_usage_trigger, sampleResource, effResource,
      effThreshold, effDiskPath, cpuRule]

/-- C7, counterexample.  The claim states that on an unknown resource
kind the evaluator returns without firing AND the caller logs a
configuration warning.  On the code the `else: return` branch produces no
log at all: the whole tick record for a rule with resource "gpu" is the
empty log and no firing. -/
theorem unknown_resource_tick_logs_nothing_cex :
    check_usage_trigger gpuRule ⟨99, 99, fun _ => 99⟩
      (ActionOutcome.ok ["sent"]) = { fired := false, logs := [] } :=
  rfl

/-- C7, amended: on a resource kind that is none of cpu/memory/disk the
evaluator returns without firing and without raising (the embedded tick
is a total function and the branch performs no call), but silently — no
configuration warning is logged. -/
theorem unknown_resource_silent_no_fire (a : AutomationConfig)
    (m : Metrics) (env : ActionOutcome)
    (h1 : effResource a.trigger_config ≠ "cpu")
    (h2 : effResource a.trigger_config ≠ "memory")
    (h3 : effResource a.trigger_config ≠ "disk") :
    check_usage_trigger a m env = { fired := false, logs := [] } := by
  have hs : sampleResource a m = none := by
    unfold sampleResource
    simp [h1, h2, h3]
  simp [check_usage_trigger, hs]

/-- C7, witness for `unknown_resource_silent_no_fire` at `gpuRule`. -/
theorem unknown_resource_silent_no_fire_witness :
    check_usage_trigger gpuRule ⟨50, 50, fun _ => 50⟩
      (ActionOutcome.raises "down") = { fired := false, logs := [] } :=
  unknown_resource_silent_no_fire gpuRule ⟨50, 50, fun _ => 50⟩
    (ActionOutcome.raises "down") (by decide) (by decide) (by decide)

/-- C8.  In every store whose dict is well formed (keys unique and each
record's id equal to its key — true of every state reached through
create/delete, where records are always stored under their own id),
`create_automation` followed by `list_automations` yields exactly one
entry whose id matches the submitted definition, and that entry is the
submitted definition itself (the persisted document mirrors the record
field for field). -/
theorem create_then_list_roundtrip (st : ManagerState)
    (a : AutomationConfig)
    (hnd : (st.automations.map Prod.fst).Nodup)
    (hid : ∀ p ∈ st.automations, (Prod.snd p).id = p.1) :
    (list_automations (create_automation st a)).filter
      (fun x => x.id == a.id) = [a] := by
  have main : ∀ l : List (String × AutomationConfig),
      (l.map Prod.fst).Nodup → (∀ p ∈ l, (Prod.snd p).id = p.1) →
      ((alistPut l a.id a).map Prod.snd).filter
        (fun x => x.id == a.id) = [a] := by
    intro l
    induction l with
    | nil =>
      intro _ _
      simp [alistPut]
    | cons p t ih =>
      obtain ⟨k, v⟩ := p
      intro hnd2 hid2
      have hvk : v.id = k := hid2 (k, v) (List.mem_cons_self _ _)
      have hcons : k ∉ t.map Prod.fst ∧ (t.map Prod.fst).Nodup :=
        List.nodup_cons.mp (by simpa using hnd2)
      have hid_t : ∀ p ∈ t, (Prod.snd p).id = p.1 :=
        fun p hp => hid2 p (List.mem_cons_of_mem _ hp)
      by_cases hk : k = a.id
      · subst hk
        have hnil : (t.map Prod.snd).filter (fun x => x.id == a.id) = [] := by
          apply filter_eq_nil_of_none
          intro x hx
          obtain ⟨q, hq, rfl⟩ := List.mem_map.mp hx
          have h1 : q.2.id = q.1 := hid_t q hq
          have h2 : q.1 ≠ a.id := by
            intro hEq
            exact hcons.1 (hEq ▸ List.mem_map_of_mem Prod.fst hq)
          simp [h1, h2]
        simp [alistPut, List.filter_cons, hnil]
      · have hvne : (v.id == a.id) = false := by simp [hvk, hk]
        simp [alistPut, hk, List.filter_cons, hvne, ih hcons.2 hid_t]
  simpa [list_automations, create_automation] using
    main st.automations hnd hid

/-- C8, witness for `create_then_list_roundtrip` on the empty store. -/
theorem create_then_list_roundtrip_witness :
    (list_automations (create_automation ⟨[], []⟩ cpuRule)).filter
      (fun x => x.id == cpuRule.id) = [cpuRule] :=
  create_then_list_roundtrip ⟨[], []⟩ cpuRule (by simp) (by simp)

/-- An existing rule stored under its own id "a", the target of a
mismatched-id update. -/
def aOld : AutomationConfig :=
  { id := "a", name := "old"
    trigger_type := "time"
    trigger_config := { cron := some "* * * * *" }
    action_type := "restart"
    action_config := { } }

/-- An update body whose embedded id "b" differs from the path id "a". -/
def aNew : AutomationConfig :=
  { id := "b", name := "new"
    trigger_type := "time"
    trigger_config := { cron := some "0 2 * * *" }
    action_type := "shutdown"
    action_config := { } }

/-- C9.  `update_automation` never compares the body's id with the path
id: it stores the body under the PATH key (so the stored record's id
field differs from its store key), leaves whatever was stored under the
body's id untouched, and `schedule_automation` keys the new job by the
BODY's id — store key, record id attribute, and job key diverge. -/
theorem update_mismatched_body_id_diverges (st : ManagerState)
    (pid : String) (a : AutomationConfig) (expr : String)
    (h1 : (alistGet st.automations pid).isSome = true)
    (h2 : a.id ≠ pid)
    (h3 : a.enabled = true)
    (h4 : a.trigger_type = "time")
    (h5 : a.trigger_config.cron = some expr) :
    update_automation st pid a =
      Except.ok
        { automations := alistPut st.automations pid a
          jobs := alistPut (alistDel st.jobs pid) a.id
            (JobKind.cron a (parseCron expr)) } ∧
    alistGet (alistPut st.automations pid a) pid = some a ∧
    alistGet (alistPut st.automations pid a) a.id =
      alistGet st.automations a.id ∧
    alistGet (alistPut (alistDel st.jobs pid) a.id
      (JobKind.cron a (parseCron expr))) a.id =
      some (JobKind.cron a (parseCron expr)) := by
  refine ⟨?_, alistGet_put_self _ _ _,
    alistGet_put_ne _ _ _ _ (fun hEq => h2 hEq.symm),
    alistGet_put_self _ _ _⟩
  simp [update_automation, h1, schedule_automation, h3, h4, h5]

/-- C9, witness for `update_mismatched_body_id_diverges`: updating the
rule stored under "a" with a body whose id is "b". -/
theorem update_mismatched_body_id_diverges_witness :
    update_automation
      ⟨[("a", aOld)], [("a", JobKind.cron aOld (parseCron "* * * * *"))]⟩
      "a" aNew =
      Except.ok
        { automations := alistPut [("a", aOld)] "a" aNew
          jobs := alistPut
            (alistDel [("a", JobKind.cron aOld (parseCron "* * * * *"))] "a")
            aNew.id (JobKind.cron aNew (parseCron "0 2 * * *")) } ∧
    alistGet (alistPut [("a", aOld)] "a" aNew) "a" = some aNew ∧
    alistGet (alistPut [("a", aOld)] "a" aNew) aNew.id =
      alistGet [("a", aOld)] aNew.id ∧
    alistGet (alistPut
      (alistDel [("a", JobKind.cron aOld (parseCron "* * * * *"))] "a")
      aNew.id (JobKind.cron aNew (parseCron "0 2 * * *"))) aNew.id =
      some (JobKind.cron aNew (parseCron "0 2 * * *")) :=
  update_mismatched_body_id_diverges
    ⟨[("a", aOld)], [("a", JobKind.cron aOld (parseCron "* * * * *"))]⟩
    "a" aNew "0 2 * * *" rfl (by decide) rfl rfl rfl

/-- C10.  The `.get(key, default)` reads of `check_usage_trigger` apply
defaults silently instead of rejecting: a missing threshold is treated
as 80, a missing resource kind as "cpu", and (in the disk branch) a
missing path as the root path "/". -/
theorem usage_trigger_config_defaults (tc : TriggerConfig) :
    (tc.threshold = none → effThreshold tc = 80) ∧
    (tc.resource = none → effResource tc = "cpu") ∧
    (tc.path = none → effDiskPath tc = "/") := by
  refine ⟨fun h => ?_, fun h => ?_, fun h => ?_⟩ <;>
    simp [effThreshold, effResource, effDiskPath, h]

/-- C10, witness for `usage_trigger_config_defaults` at the empty
trigger configuration. -/
theorem usage_trigger_config_defaults_witness :
    effThreshold { } = 80 ∧ effResource { } = "cpu" ∧
    effDiskPath { } = "/" :=
  ⟨(usage_trigger_config_defaults { }).1 rfl,
   (usage_trigger_config_defaults { }).2.1 rfl,
   (usage_trigger_config_defaults { }).2.2 rfl⟩
